import Mathlib

/-!
Verification development for the openclaw control UI's chat logic.

The development shallowly embeds the chat transcript data model, the chat
session controller (event handling, history loading, message sending), the
chat item builder, and the assistant-ui runtime adapter
(`src/ui/src/ui/chat-assistant/runtime/adapter.ts`).

The runtime adapter is embedded directly from its TypeScript source.  The
controller (`controllers/chat.ts`), the item builder
(`chat/build-chat-items.ts`), the role normalizer
(`chat/message-normalizer.ts`) and the text extractor
(`chat/message-extract.ts`) are not present in the repository snapshot (only
their tests and callers are); those definitions are modelled from the
specification, with each such definition's doc comment marked
`Modelled from the spec:`.
-/

namespace OpenClaw

/-- A compaction marker attached to a transcript message via the
`__openclaw` field, e.g. `{ kind: "compaction", id: "abc123" }`. -/
structure CompactionMarker where
  kind : String
  id : String
deriving DecidableEq, Repr

/-- A typed content block inside a message's `content` array.
`image` carries the `source.media_type` and `source.data` fields of the
wire shape `{ type: "image", source: { type: "base64", media_type, data } }`. -/
inductive ContentBlock where
  | text (text : String)
  | image (mediaType : String) (data : String)
  | toolCall (name : String)
  | toolResult (name : String) (text : String)
  | thinking (text : String)
deriving DecidableEq, Repr

/-- A message's `content` field: either a legacy bare string or an ordered
list of typed content blocks. -/
inductive MsgContent where
  | str (s : String)
  | blocks (bs : List ContentBlock)
deriving DecidableEq, Repr

/-- A single transcript entry.  `content := none` models an entry whose
`content` field is absent altogether.  `marker` models the optional
`__openclaw` compaction marker. -/
structure Message where
  id : Option String := none
  role : String
  content : Option MsgContent := none
  timestamp : Int := 0
  stopReason : Option String := none
  marker : Option CompactionMarker := none
deriving DecidableEq, Repr

/-- The text of a content block, when it is a text-bearing block. -/
def contentBlockText : ContentBlock → Option String
  | .text t => some t
  | _ => none

/-- Whether a character is whitespace for trimming purposes. -/
def isWhitespaceChar (c : Char) : Bool :=
  c = ' ' ∨ c = '\t' ∨ c = '\n' ∨ c = '\r'

/-- The embedding of JavaScript's `trim`: leading and trailing whitespace
removed. -/
def trimStr (s : String) : String :=
  String.mk (((s.data.dropWhile isWhitespaceChar).reverse.dropWhile
    isWhitespaceChar).reverse)

/-- Modelled from the spec: `extractTextCached` of `chat/message-extract.ts`
(absent from the snapshot).  Best-effort plain text of a message: the
trimmed concatenation of its text-bearing content blocks; a legacy bare
string content is treated as a single text block; malformed or missing
content yields the empty string. -/
def extractTextCached (m : Message) : String :=
  match m.content with
  | some (.str s) => trimStr s
  | some (.blocks bs) =>
      trimStr (String.intercalate "\n" (((bs.filterMap contentBlockText).map trimStr).filter
        (fun t => t ≠ "")))
  | none => ""

/-- ASCII lowercase of a character (the embedding of JavaScript's
`toLowerCase` restricted to the ASCII role strings this code compares). -/
def lowerChar (c : Char) : Char :=
  if 65 ≤ c.toNat ∧ c.toNat ≤ 90 then Char.ofNat (c.toNat + 32) else c

/-- ASCII lowercase of a string. -/
def lowerStr (s : String) : String :=
  String.mk (s.data.map lowerChar)

/-- Modelled from the spec: `normalizeRoleForGrouping` of
`chat/message-normalizer.ts` (absent from the snapshot).  Maps an arbitrary
role string, case-insensitively, to one of the fixed set
user / assistant / system / tool / other; the aliases `tool_result`,
`toolResult` and `tool-result` normalize to the tool-result class used by
the builder. -/
def normalizeRoleForGrouping (role : String) : String :=
  if lowerStr role = "user" then "user"
  else if lowerStr role = "assistant" then "assistant"
  else if lowerStr role = "system" then "system"
  else if lowerStr role = "tool" ∨ lowerStr role = "tool_result" ∨
      lowerStr role = "toolresult" ∨ lowerStr role = "tool-result" then "tool"
  else "other"

/-! ## Chat session controller state -/

/-- The controller's session-scoped state (the `ChatState` of
`controllers/chat.ts`, as exercised by its tests).  The RPC client object is
not modelled; `connected` carries the connectivity flag. -/
structure ChatState where
  chatLoading : Bool := false
  chatMessages : List Message := []
  chatRunId : Option String := none
  chatSending : Bool := false
  chatStream : Option String := none
  chatStreamStartedAt : Option Int := none
  chatThinkingLevel : Option String := none
  connected : Bool := true
  lastError : Option String := none
  sessionKey : String := "main"
deriving DecidableEq, Repr

/-- A push event's optional `message` field: either a bare (non-object)
string or an object-shaped message. -/
inductive EventMessage where
  | str (s : String)
  | obj (m : Message)
deriving DecidableEq, Repr

/-- A server-push chat event `{ runId, sessionKey, state, message? }`,
with `state` one of "delta" / "final" / "aborted". -/
structure ChatEventPayload where
  runId : String
  sessionKey : String
  state : String
  message : Option EventMessage := none
deriving DecidableEq, Repr

/-- Whether an event-carried message has non-empty content: a non-blank
legacy string, or a non-empty block list. -/
def contentNonEmpty (m : Message) : Bool :=
  match m.content with
  | some (.str s) => trimStr s ≠ ""
  | some (.blocks bs) => !bs.isEmpty
  | none => false

/-- The assistant message synthesized from the controller's buffered stream
text when an own-run abort arrives with a malformed payload. -/
def syntheticAbortMessage (text : String) : Message :=
  { role := "assistant", content := some (.blocks [.text text]) }

/-- The messages appended on an own-run "aborted" event: a well-formed
assistant message with non-empty content is appended as carried; otherwise
(wrong role, non-object payload, or no message) an assistant message is
synthesized from the buffered stream text when that text is non-empty. -/
def abortedAppend (streamText : String) (message : Option EventMessage) : List Message :=
  let fallback : List Message :=
    if streamText ≠ "" then [syntheticAbortMessage streamText] else []
  match message with
  | some (.obj m) =>
      if m.role = "assistant" then (if contentNonEmpty m then [m] else [])
      else fallback
  | some (.str _) => fallback
  | none => fallback

/-- Modelled from the spec: `handleChatEvent` of `controllers/chat.ts`
(absent from the snapshot).  The event-handling state machine: missing
payloads and foreign sessions are ignored; foreign-run deltas are ignored
while foreign-run terminal events are surfaced without mutation; own-run
terminal events clear `chatRunId`/`chatStream`/`chatStreamStartedAt`
together, with an own-run abort additionally preserving partial output. -/
def handleChatEvent (state : ChatState) (payload : Option ChatEventPayload) :
    ChatState × Option String :=
  match payload with
  | none => (state, none)
  | some p =>
    if p.sessionKey ≠ state.sessionKey then (state, none)
    else if state.chatRunId ≠ some p.runId then
      if p.state = "final" ∨ p.state = "aborted" then (state, some p.state) else (state, none)
    else if p.state = "delta" then
      let deltaText :=
        match p.message with
        | some (.obj m) => extractTextCached m
        | _ => ""
      ({ state with chatStream := some ((state.chatStream.getD "") ++ deltaText) }, some "delta")
    else if p.state = "final" then
      ({ state with chatRunId := none, chatStream := none, chatStreamStartedAt := none },
        some "final")
    else if p.state = "aborted" then
      ({ state with
          chatRunId := none
          chatStream := none
          chatStreamStartedAt := none
          chatMessages := state.chatMessages ++ abortedAppend (state.chatStream.getD "") p.message },
        some "aborted")
    else (state, none)

/-! ## Chat item builder (`chat/build-chat-items.ts`, modelled from the spec)

The builder turns the message history plus the live stream into the
ordered list of render items: an optional truncation-notice group, message
groups and compaction dividers, and a trailing stream bubble or reading
indicator. -/

/-- A render item produced by the chat item builder (a closed tagged
union): message group, compaction divider, streaming bubble, or reading
indicator.  Group members are (key, message) pairs. -/
inductive ChatItem where
  | group (key : String) (role : String) (messages : List (String × Message))
      (timestamp : Int) (isStreaming : Bool)
  | divider (key : String) (label : String) (timestamp : Int)
  | stream (key : String) (text : String) (startedAt : Int)
  | readingIndicator (key : String)
deriving DecidableEq, Repr

/-- Modelled from the spec: a message's stable identity — its `id` when
present, else a content-derived fallback. -/
def msgIdentity (m : Message) : String :=
  match m.id with
  | some i => i
  | none => toString m.timestamp ++ ":" ++ extractTextCached m

/-- A group's key, deterministic from its first member's identity and the
group's normalized role. -/
def groupKey (role : String) (first : Message) : String :=
  "group:" ++ role ++ ":" ++ msgIdentity first

/-- Modelled from the spec: merging the tool-message list into the visible
sequence in timestamp order. -/
def mergeByTimestamp : List Message → List Message → List Message
  | [], ys => ys
  | x :: xs, [] => x :: xs
  | x :: xs, y :: ys =>
    if x.timestamp ≤ y.timestamp then x :: mergeByTimestamp xs (y :: ys)
    else y :: mergeByTimestamp (x :: xs) ys
termination_by xs ys => xs.length + ys.length

/-- Whether a message is classified as a tool result (the class the
normalizer maps `tool` / `tool_result` / `toolResult` aliases to). -/
def isToolResultMsg (m : Message) : Bool :=
  normalizeRoleForGrouping m.role == "tool"

/-- Closes the current run of same-role messages into a group item: key
from the first member's identity and role, members keyed by their own
identities, timestamp from the last member.  An empty run yields no
item. -/
def closeGroup : List Message → List ChatItem
  | [] => []
  | first :: rest =>
    let role := normalizeRoleForGrouping first.role
    [ChatItem.group (groupKey role first) role
      ((first :: rest).map (fun x => (msgIdentity x, x)))
      (rest.getLastD first).timestamp false]

/-- Modelled from the spec: the walk over the visible message sequence.
Messages carrying a compaction marker become divider items (keyed by the
marker's unique id, labeled "Compaction") and close the current group;
consecutive messages with the same normalized role coalesce into one
group.  `cur` accumulates the current run in reverse order. -/
def walkAux : List Message → List Message → List ChatItem
  | cur, [] => closeGroup cur.reverse
  | cur, m :: rest =>
    match m.marker with
    | some marker =>
        closeGroup cur.reverse ++
          (ChatItem.divider ("divider:" ++ marker.kind ++ ":" ++ marker.id) "Compaction"
              m.timestamp :: walkAux [] rest)
    | none =>
      match cur with
      | [] => walkAux [m] rest
      | c :: _ =>
        if normalizeRoleForGrouping c.role = normalizeRoleForGrouping m.role then
          walkAux (m :: cur) rest
        else closeGroup cur.reverse ++ walkAux [m] rest

/-- The streaming affordance on a group: sets the `isStreaming` flag when
a stream is active and the group continues the live assistant turn. -/
def markStreamFlag (active : Bool) : ChatItem → ChatItem
  | .group k r ms t _ => .group k r ms t (active && r == "assistant")
  | item => item

/-- Applies the streaming affordance to the last history item. -/
def markTail (active : Bool) : List ChatItem → List ChatItem
  | [] => []
  | [item] => [markStreamFlag active item]
  | item :: next :: rest => item :: markTail active (next :: rest)

/-- The inputs of the chat item builder. -/
structure BuildParams where
  sessionKey : String
  messages : List Message
  toolMessages : List Message
  showThinking : Bool
  stream : Option String
  streamStartedAt : Option Int
deriving DecidableEq, Repr

/-- The trailing stream bubble or reading indicator: `stream = none` means
no active run, `""` an active run with no text yet (reading indicator),
and non-empty text a stream item; both keyed `stream:<session>:<startedAt>`. -/
def streamItems (p : BuildParams) : List ChatItem :=
  match p.stream with
  | none => []
  | some s =>
    let startedAt := p.streamStartedAt.getD 0
    let key := "stream:" ++ p.sessionKey ++ ":" ++ toString startedAt
    if s = "" then [ChatItem.readingIndicator key] else [ChatItem.stream key s startedAt]

/-- Modelled from the spec: the visible message sequence — tool messages
merged in timestamp order when show-thinking is on, tool results filtered
out when it is off. -/
def visibleMessages (p : BuildParams) (msgs : List Message) : List Message :=
  if p.showThinking then mergeByTimestamp msgs p.toolMessages
  else msgs.filter (fun m => !(isToolResultMsg m))

/-- The history-derived items followed by the stream/indicator item. -/
def buildChatBody (p : BuildParams) (msgs : List Message) : List ChatItem :=
  markTail p.stream.isSome (walkAux [] (visibleMessages p msgs)) ++ streamItems p

/-- The truncation notice text reporting the hidden count. -/
def truncationNoticeText (total : Nat) : String :=
  "Showing last 200 messages (" ++ toString (total - 200) ++ " hidden)."

/-- The synthetic system message carrying the truncation notice (legacy
bare-string content, as the builder's tests observe). -/
def truncationNotice (total : Nat) : Message :=
  { id := some "history-truncation-notice", role := "system",
    content := some (.str (truncationNoticeText total)), timestamp := 0 }

/-- Modelled from the spec: `buildChatItems` of `chat/build-chat-items.ts`
(absent from the snapshot).  Histories longer than 200 messages are cut to
the most recent 200 with a synthetic system-role notice group prepended;
the remaining messages are walked into groups and dividers, and the
stream bubble or reading indicator is appended last. -/
def buildChatItems (p : BuildParams) : List ChatItem :=
  let total := p.messages.length
  if 200 < total then
    let notice := truncationNotice total
    ChatItem.group (groupKey "system" notice) "system" [(msgIdentity notice, notice)]
        notice.timestamp false
      :: buildChatBody p (p.messages.drop (total - 200))
  else buildChatBody p p.messages

/-- C6: histories longer than 200 messages keep only the most recent 200
and get a system-role group with exactly one message reporting the hidden
count prepended as the first item; for a 205-message history that text is
"Showing last 200 messages (5 hidden)."; histories of at most 200 messages
produce no notice. -/
theorem buildChatItems_truncation_notice (p : BuildParams) :
    (200 < p.messages.length →
      buildChatItems p =
        ChatItem.group (groupKey "system" (truncationNotice p.messages.length)) "system"
            [(msgIdentity (truncationNotice p.messages.length),
              truncationNotice p.messages.length)] 0 false
          :: buildChatBody p (p.messages.drop (p.messages.length - 200)) ∧
      (truncationNotice p.messages.length).content =
        some (.str (truncationNoticeText p.messages.length))) ∧
    (p.messages.length = 205 →
      truncationNoticeText p.messages.length = "Showing last 200 messages (5 hidden).") ∧
    (p.messages.length ≤ 200 → buildChatItems p = buildChatBody p p.messages) := by
  refine ⟨?_, ?_, ?_⟩
  · intro h
    exact ⟨by simp [buildChatItems, h, truncationNotice], rfl⟩
  · intro h
    rw [h]
    decide
  · intro h
    simp [buildChatItems, Nat.not_lt.mpr h]

/-- A concrete 205-message history exercising the truncation notice. -/
def truncationExampleParams : BuildParams :=
  { sessionKey := "main",
    messages := (List.range 205).map (fun (i : Nat) =>
      { id := some ("user-" ++ toString i), role := "user",
        content := some (.blocks [.text ("user message " ++ toString i)]),
        timestamp := Int.ofNat i + 1 }),
    toolMessages := [], showThinking := false, stream := none, streamStartedAt := none }

/-- Witness for C6: on the concrete 205-message history the notice text is
exactly "Showing last 200 messages (5 hidden).". -/
theorem buildChatItems_truncation_notice_witness :
    truncationNoticeText truncationExampleParams.messages.length =
      "Showing last 200 messages (5 hidden)." :=
  (buildChatItems_truncation_notice truncationExampleParams).2.1
    (by unfold truncationExampleParams
        simp only [List.length_map, List.length_range])

/-! ## Sending (`sendChatMessage`)

The async send request is embedded by passing in the request's outcome
(success with a run id, or failure) and returning, besides the new state
and the run-id result, the request that was issued (if any). -/

/-- A composer attachment `{ id, dataUrl, mimeType }`. -/
structure ChatAttachment where
  id : String
  dataUrl : String
  mimeType : String
deriving DecidableEq, Repr

/-- A `chat.send` attachment in API format `{ type, mimeType, content }`. -/
structure SendAttachment where
  type : String
  mimeType : String
  content : String
deriving DecidableEq, Repr

/-- The `chat.send` request body
`{ sessionKey, message, attachments, deliver: false }`. -/
structure SendRequest where
  sessionKey : String
  message : String
  attachments : List SendAttachment
  deliver : Bool
deriving DecidableEq, Repr

/-- The outcome of the async `chat.send` request. -/
inductive SendOutcome where
  | ok (runId : String)
  | failed (error : String)
deriving DecidableEq, Repr

/-- The base64 payload of an attachment: the part of its data URL after
the first comma (`data:image/png;base64,QUJD` yields `QUJD`). -/
def attachmentBase64 (a : ChatAttachment) : String :=
  match a.dataUrl.splitOn "," with
  | [] => ""
  | _ :: rest => String.intercalate "," rest

/-- The attachment re-encoded for the `chat.send` request. -/
def toSendAttachment (a : ChatAttachment) : SendAttachment :=
  { type := "image", mimeType := a.mimeType, content := attachmentBase64 a }

/-- The optimistic user message appended on send: one text block plus one
image block per attachment (the image block carries the attachment's data
URL). -/
def optimisticUserMessage (text : String) (attachments : List ChatAttachment)
    (now : Int) : Message :=
  { role := "user",
    content := some (.blocks
      (ContentBlock.text text ::
        attachments.map (fun a => ContentBlock.image a.mimeType a.dataUrl))),
    timestamp := now }

/-- The synthetic assistant message surfacing a send failure inline. -/
def errorAssistantMessage (e : String) (now : Int) : Message :=
  { role := "assistant", content := some (.blocks [.text ("Error: " ++ e)]),
    timestamp := now }

/-- Modelled from the spec: `sendChatMessage` of `controllers/chat.ts`
(absent from the snapshot).  A no-op returning `none` when disconnected;
otherwise appends the optimistic user message, issues the `chat.send`
request, and on success returns the run id while on failure it records the
error and appends an inline assistant error message; the `chatSending`
flag always ends cleared. -/
def sendChatMessage (state : ChatState) (text : String)
    (attachments : List ChatAttachment) (now : Int) (outcome : SendOutcome) :
    ChatState × Option String × Option SendRequest :=
  if !state.connected then ({ state with chatSending := false }, none, none)
  else
    let req : SendRequest :=
      { sessionKey := state.sessionKey, message := text,
        attachments := attachments.map toSendAttachment, deliver := false }
    let optimistic := optimisticUserMessage text attachments now
    match outcome with
    | .ok runId =>
        ({ state with
            chatMessages := state.chatMessages ++ [optimistic]
            chatSending := false },
          some runId, some req)
    | .failed e =>
        ({ state with
            chatMessages := state.chatMessages ++ [optimistic, errorAssistantMessage e now]
            chatSending := false
            lastError := some e },
          none, some req)

/-- C5: `sendChatMessage` on a disconnected state performs no request,
appends nothing, and returns `null`; when connected it appends exactly one
optimistic user message (one text block plus one image block per
attachment) and issues a `chat.send` request carrying
`{sessionKey, message, attachments, deliver: false}` in API format,
returning the run id on success; on failure it returns `null`, records the
failure, and appends an assistant message whose first content block's text
starts with "Error:"; in every case the final `chatSending` is false. -/
theorem sendChatMessage_spec (state : ChatState) (text : String)
    (attachments : List ChatAttachment) (now : Int) (outcome : SendOutcome) :
    (state.connected = false →
      (sendChatMessage state text attachments now outcome).2.2 = none ∧
      (sendChatMessage state text attachments now outcome).2.1 = none ∧
      (sendChatMessage state text attachments now outcome).1.chatMessages =
        state.chatMessages) ∧
    (state.connected = true →
      (sendChatMessage state text attachments now outcome).2.2 =
        some { sessionKey := state.sessionKey, message := text,
               attachments := attachments.map toSendAttachment, deliver := false } ∧
      (∀ runId, outcome = .ok runId →
        (sendChatMessage state text attachments now outcome).2.1 = some runId ∧
        (sendChatMessage state text attachments now outcome).1.chatMessages =
          state.chatMessages ++ [optimisticUserMessage text attachments now] ∧
        (optimisticUserMessage text attachments now).content =
          some (.blocks (ContentBlock.text text ::
            attachments.map (fun a => ContentBlock.image a.mimeType a.dataUrl)))) ∧
      (∀ e, outcome = .failed e →
        (sendChatMessage state text attachments now outcome).2.1 = none ∧
        (sendChatMessage state text attachments now outcome).1.lastError = some e ∧
        (sendChatMessage state text attachments now outcome).1.chatMessages =
          state.chatMessages ++
            [optimisticUserMessage text attachments now, errorAssistantMessage e now] ∧
        (errorAssistantMessage e now).role = "assistant" ∧
        (∃ rest, (errorAssistantMessage e now).content =
          some (.blocks [.text ("Error:" ++ rest)])))) ∧
    (sendChatMessage state text attachments now outcome).1.chatSending = false := by
  have hlit : ("Error:" ++ " " : String) = "Error: " := by decide
  refine ⟨?_, ?_, ?_⟩
  · intro hc
    refine ⟨?_, ?_, ?_⟩ <;> cases outcome <;> simp [sendChatMessage, hc]
  · intro hc
    refine ⟨?_, ?_, ?_⟩
    · cases outcome <;> simp [sendChatMessage, hc]
    · rintro runId rfl
      refine ⟨?_, ?_, rfl⟩ <;> simp [sendChatMessage, hc]
    · rintro e rfl
      refine ⟨?_, ?_, ?_, rfl, ?_⟩
      · simp [sendChatMessage, hc]
      · simp [sendChatMessage, hc]
      · simp [sendChatMessage, hc]
      · refine ⟨" " ++ e, ?_⟩
        rw [errorAssistantMessage, ← String.append_assoc, hlit]
  · cases outcome <;> cases hc : state.connected <;> simp [sendChatMessage, hc]

/-- Witness for C5: a connected send whose request fails with "boom"
returns `null`, records the error, appends the inline assistant error
message, and ends with `chatSending = false`. -/
theorem sendChatMessage_spec_witness :
    (sendChatMessage { sessionKey := "main" } "hello" [] 0 (.failed "boom")).2.1 = none ∧
    (sendChatMessage { sessionKey := "main" } "hello" [] 0
        (.failed "boom")).1.lastError = some "boom" ∧
    (sendChatMessage { sessionKey := "main" } "hello" [] 0 (.failed "boom")).1.chatMessages =
      [] ++ [optimisticUserMessage "hello" [] 0, errorAssistantMessage "boom" 0] ∧
    (errorAssistantMessage "boom" 0).role = "assistant" ∧
    (∃ rest, (errorAssistantMessage "boom" 0).content =
      some (.blocks [.text ("Error:" ++ rest)])) :=
  ((sendChatMessage_spec { sessionKey := "main" } "hello" [] 0 (.failed "boom")).2.1
    (by decide)).2.2 "boom" rfl

/-! ## Claim theorems for the event handler -/

/-- C1: for every state and every event payload whose `sessionKey` equals
the active session and whose `runId` equals the controller's own
`chatRunId`, a terminal ("final" or "aborted") event makes `handleChatEvent`
clear all three of `chatRunId`, `chatStream` and `chatStreamStartedAt`
together, and the event kind is returned. -/
theorem handleChatEvent_own_terminal_clears_run_state
    (state : ChatState) (p : ChatEventPayload)
    (hs : p.sessionKey = state.sessionKey) (hr : state.chatRunId = some p.runId)
    (hst : p.state = "final" ∨ p.state = "aborted") :
    (handleChatEvent state (some p)).1.chatRunId = none ∧
    (handleChatEvent state (some p)).1.chatStream = none ∧
    (handleChatEvent state (some p)).1.chatStreamStartedAt = none ∧
    (handleChatEvent state (some p)).2 = some p.state := by
  rcases hst with h | h <;> simp [handleChatEvent, hs, hr, h]

/-- Witness for C1: a concrete own-run "final" event clears the three run
fields and returns "final". -/
theorem handleChatEvent_own_terminal_clears_run_state_witness :
    (handleChatEvent
        { chatRunId := some "run-1", chatStream := some "Reply",
          chatStreamStartedAt := some 100, sessionKey := "main" }
        (some { runId := "run-1", sessionKey := "main", state := "final" })).1.chatRunId = none ∧
    (handleChatEvent
        { chatRunId := some "run-1", chatStream := some "Reply",
          chatStreamStartedAt := some 100, sessionKey := "main" }
        (some { runId := "run-1", sessionKey := "main", state := "final" })).1.chatStream = none ∧
    (handleChatEvent
        { chatRunId := some "run-1", chatStream := some "Reply",
          chatStreamStartedAt := some 100, sessionKey := "main" }
        (some { runId := "run-1", sessionKey := "main",
                state := "final" })).1.chatStreamStartedAt = none ∧
    (handleChatEvent
        { chatRunId := some "run-1", chatStream := some "Reply",
          chatStreamStartedAt := some 100, sessionKey := "main" }
        (some { runId := "run-1", sessionKey := "main", state := "final" })).2 = some "final" :=
  handleChatEvent_own_terminal_clears_run_state
    { chatRunId := some "run-1", chatStream := some "Reply",
      chatStreamStartedAt := some 100, sessionKey := "main" }
    { runId := "run-1", sessionKey := "main", state := "final" }
    (by decide) (by decide) (Or.inl (by decide))

/-- C2: missing payloads and session mismatches are ignored entirely, and
foreign-run events never mutate the state: a foreign "delta" returns `none`
and a foreign terminal event returns its kind, in both cases leaving the
whole state (in particular `chatRunId`, `chatStream`,
`chatStreamStartedAt`) unchanged. -/
theorem handleChatEvent_foreign_events_frame (state : ChatState) (p : ChatEventPayload) :
    handleChatEvent state none = (state, none) ∧
    (p.sessionKey ≠ state.sessionKey → handleChatEvent state (some p) = (state, none)) ∧
    (p.sessionKey = state.sessionKey → state.chatRunId ≠ some p.runId →
      (p.state = "delta" → handleChatEvent state (some p) = (state, none)) ∧
      ((p.state = "final" ∨ p.state = "aborted") →
        handleChatEvent state (some p) = (state, some p.state))) := by
  refine ⟨rfl, ?_, ?_⟩
  · intro h
    simp [handleChatEvent, h]
  · intro hs hr
    refine ⟨?_, ?_⟩
    · intro hd
      simp [handleChatEvent, hs, hr, hd]
    · rintro (h | h) <;> simp [handleChatEvent, hs, hr, h]

/-- Witness for C2: with an active own run `run-user`, a foreign-run
"final" event on the same session is surfaced with the state untouched. -/
theorem handleChatEvent_foreign_events_frame_witness :
    handleChatEvent
        { chatRunId := some "run-user", chatStream := some "Working...",
          chatStreamStartedAt := some 123, sessionKey := "main" }
        (some { runId := "run-announce", sessionKey := "main", state := "final" }) =
      ({ chatRunId := some "run-user", chatStream := some "Working...",
         chatStreamStartedAt := some 123, sessionKey := "main" }, some "final") :=
  ((handleChatEvent_foreign_events_frame
      { chatRunId := some "run-user", chatStream := some "Working...",
        chatStreamStartedAt := some 123, sessionKey := "main" }
      { runId := "run-announce", sessionKey := "main", state := "final" }).2.2
    (by decide) (by decide)).2 (Or.inl (by decide))

/-- C3: on an own-run "aborted" event the handler returns "aborted" and:
a well-formed assistant message with non-empty content is appended as
carried; a malformed message (bare string, or wrong role) makes it append
an assistant message synthesized from the buffered stream text when that
text is non-empty; when the stream text is empty and no well-formed
non-empty assistant message is carried, nothing is appended.  Pre-existing
messages are preserved in order in each case. -/
theorem handleChatEvent_aborted_message_handling
    (state : ChatState) (p : ChatEventPayload)
    (hs : p.sessionKey = state.sessionKey) (hr : state.chatRunId = some p.runId)
    (hst : p.state = "aborted") :
    (handleChatEvent state (some p)).2 = some "aborted" ∧
    (∀ m, p.message = some (.obj m) → m.role = "assistant" → contentNonEmpty m = true →
      (handleChatEvent state (some p)).1.chatMessages = state.chatMessages ++ [m]) ∧
    (((∃ s, p.message = some (.str s)) ∨
      (∃ m, p.message = some (.obj m) ∧ m.role ≠ "assistant")) →
      state.chatStream.getD "" ≠ "" →
      (handleChatEvent state (some p)).1.chatMessages =
        state.chatMessages ++ [syntheticAbortMessage (state.chatStream.getD "")]) ∧
    (state.chatStream.getD "" = "" →
      (¬ ∃ m, p.message = some (.obj m) ∧ m.role = "assistant" ∧ contentNonEmpty m = true) →
      (handleChatEvent state (some p)).1.chatMessages = state.chatMessages) := by
  have hrun : (handleChatEvent state (some p)).1.chatMessages =
      state.chatMessages ++ abortedAppend (state.chatStream.getD "") p.message ∧
      (handleChatEvent state (some p)).2 = some "aborted" := by
    constructor <;> simp [handleChatEvent, hs, hr, hst]
  refine ⟨hrun.2, ?_, ?_, ?_⟩
  · intro m hm hrole hc
    rw [hrun.1, hm]
    simp [abortedAppend, hrole, hc]
  · rintro (⟨s, hm⟩ | ⟨m, hm, hrole⟩) hstream
    · rw [hrun.1, hm]
      simp [abortedAppend, hstream]
    · rw [hrun.1, hm]
      simp [abortedAppend, hstream, hrole]
  · intro h0 hno
    rw [hrun.1]
    match hm : p.message with
    | none => simp [abortedAppend, h0]
    | some (.str s) => simp [abortedAppend, h0]
    | some (.obj m) =>
      by_cases hrole : m.role = "assistant"
      · have hc : contentNonEmpty m = false := by
          by_contra hcc
          exact hno ⟨m, hm, hrole, by simpa using hcc⟩
        simp [abortedAppend, hrole, hc]
      · simp [abortedAppend, hrole, h0]

/-! ## History loading (`loadChatHistory`)

`loadChatHistory` issues one async request and applies the response only
when it is still fresh.  The async call is embedded as two explicit steps:
issuing (which captures a ticket) and resolving (which applies or discards
a response); an arbitrary interleaving of overlapping calls is a sequence
of these steps. -/

/-- A history-fetch response `{ messages, thinkingLevel }`. -/
structure HistoryResponse where
  messages : List Message
  thinkingLevel : Option String := none
deriving DecidableEq, Repr

/-- Modelled from the spec: the history normalization of `loadChatHistory`
(absent from the snapshot).  Legacy bare-string content is wrapped as a
single text block, blank legacy string content is dropped, and assistant
entries flagged `stopReason = "error"` with empty or missing content are
dropped. -/
def normalizeHistoryEntry (m : Message) : Option Message :=
  match m.content with
  | some (.str s) =>
      if trimStr s = "" then none
      else some { m with content := some (.blocks [.text s]) }
  | some (.blocks bs) =>
      if m.role = "assistant" ∧ m.stopReason = some "error" ∧ bs = [] then none
      else some m
  | none =>
      if m.role = "assistant" ∧ m.stopReason = some "error" then none
      else some m

/-- The normalized form of a fetched history. -/
def normalizeHistory (msgs : List Message) : List Message :=
  msgs.filterMap normalizeHistoryEntry

/-- The freshness ticket captured when a history load is issued: the
request's sequence number and the session key active at issue time. -/
structure HistTicket where
  seq : Nat
  sessionKey : String
deriving DecidableEq, Repr

/-- Controller state extended with the monotonic history-request sequence
counter that implements latest-wins for overlapping loads. -/
structure LoadState where
  st : ChatState
  historySeq : Nat := 0
deriving DecidableEq, Repr

/-- Modelled from the spec: the issuing half of `loadChatHistory` (absent
from the snapshot).  Bumps the request sequence counter, marks the state
loading, and captures the ticket carried by the in-flight request. -/
def issueLoadChatHistory (s : LoadState) : LoadState × HistTicket :=
  ({ st := { s.st with chatLoading := true }, historySeq := s.historySeq + 1 },
   { seq := s.historySeq + 1, sessionKey := s.st.sessionKey })

/-- Modelled from the spec: the resolution half of `loadChatHistory`
(absent from the snapshot).  A response is applied only when its ticket is
both the most recently issued request and captured under the session key
still active at resolution time; otherwise it is discarded (a
latest-ticket resolution still clears the loading flag). -/
def resolveLoadChatHistory (s : LoadState) (t : HistTicket) (r : HistoryResponse) : LoadState :=
  if t.seq = s.historySeq then
    if t.sessionKey = s.st.sessionKey then
      { s with st := { s.st with
          chatMessages := normalizeHistory r.messages
          chatThinkingLevel := r.thinkingLevel
          chatLoading := false } }
    else { s with st := { s.st with chatLoading := false } }
  else s

/-- A session switch happening while a request is in flight. -/
def setSessionKey (s : LoadState) (k : String) : LoadState :=
  { s with st := { s.st with sessionKey := k } }

/-- C4: for two overlapping history loads (both issued before either
resolution), both resolution orders leave `chatMessages` and
`chatThinkingLevel` reflecting the most recently initiated call's
response — in particular when the earlier call's response resolves after
the later call's response has been applied; and a resolution arriving
after the session key changed is discarded, leaving `chatMessages`
unchanged. -/
theorem loadChatHistory_latest_wins_and_session_fencing
    (s0 : LoadState) (r1 r2 : HistoryResponse) (k : String) :
    ((resolveLoadChatHistory
        (resolveLoadChatHistory (issueLoadChatHistory (issueLoadChatHistory s0).1).1
          (issueLoadChatHistory s0).2 r1)
        (issueLoadChatHistory (issueLoadChatHistory s0).1).2 r2).st.chatMessages =
          normalizeHistory r2.messages ∧
      (resolveLoadChatHistory
        (resolveLoadChatHistory (issueLoadChatHistory (issueLoadChatHistory s0).1).1
          (issueLoadChatHistory s0).2 r1)
        (issueLoadChatHistory (issueLoadChatHistory s0).1).2 r2).st.chatThinkingLevel =
          r2.thinkingLevel) ∧
    ((resolveLoadChatHistory
        (resolveLoadChatHistory (issueLoadChatHistory (issueLoadChatHistory s0).1).1
          (issueLoadChatHistory (issueLoadChatHistory s0).1).2 r2)
        (issueLoadChatHistory s0).2 r1).st.chatMessages =
          normalizeHistory r2.messages ∧
      (resolveLoadChatHistory
        (resolveLoadChatHistory (issueLoadChatHistory (issueLoadChatHistory s0).1).1
          (issueLoadChatHistory (issueLoadChatHistory s0).1).2 r2)
        (issueLoadChatHistory s0).2 r1).st.chatThinkingLevel =
          r2.thinkingLevel) ∧
    (k ≠ s0.st.sessionKey →
      (resolveLoadChatHistory (setSessionKey (issueLoadChatHistory s0).1 k)
        (issueLoadChatHistory s0).2 r1).st.chatMessages =
        (setSessionKey (issueLoadChatHistory s0).1 k).st.chatMessages) := by
  have hseq : s0.historySeq + 1 ≠ s0.historySeq + 1 + 1 := by omega
  refine ⟨⟨?_, ?_⟩, ⟨?_, ?_⟩, ?_⟩
  · simp [issueLoadChatHistory, resolveLoadChatHistory, hseq]
  · simp [issueLoadChatHistory, resolveLoadChatHistory, hseq]
  · simp [issueLoadChatHistory, resolveLoadChatHistory, hseq]
  · simp [issueLoadChatHistory, resolveLoadChatHistory, hseq]
  · intro hk
    simp [issueLoadChatHistory, resolveLoadChatHistory, setSessionKey, Ne.symm hk]

/-- Witness for C4: after a session switch from "main" to "other", the
pending load's response is discarded and `chatMessages` is unchanged. -/
theorem loadChatHistory_latest_wins_and_session_fencing_witness :
    (resolveLoadChatHistory
        (setSessionKey (issueLoadChatHistory { st := { sessionKey := "main" } }).1 "other")
        (issueLoadChatHistory { st := { sessionKey := "main" } }).2
        { messages := [{ role := "assistant",
                         content := some (.blocks [.text "old-main"]), timestamp := 1 }] }).st.chatMessages =
      (setSessionKey (issueLoadChatHistory { st := { sessionKey := "main" } }).1 "other").st.chatMessages :=
  (loadChatHistory_latest_wins_and_session_fencing { st := { sessionKey := "main" } }
    { messages := [{ role := "assistant",
                     content := some (.blocks [.text "old-main"]), timestamp := 1 }] }
    { messages := [] } "other").2.2 (by decide)

/-- Witness for C3: an own-run abort carrying a wrong-role message while
the buffered stream text is "Partial reply" appends the synthesized
assistant message. -/
theorem handleChatEvent_aborted_message_handling_witness :
    (handleChatEvent
        { chatRunId := some "run-1", chatStream := some "Partial reply",
          chatStreamStartedAt := some 100,
          chatMessages := [{ role := "user", content := some (.blocks [.text "Hi"]),
                             timestamp := 1 }],
          sessionKey := "main" }
        (some { runId := "run-1", sessionKey := "main", state := "aborted",
                message :=
                  some (.obj { role := "user",
                               content := some (.blocks [.text "unexpected"]) }) })).1.chatMessages =
      [{ role := "user", content := some (.blocks [.text "Hi"]), timestamp := 1 }] ++
        [syntheticAbortMessage "Partial reply"] :=
  ((handleChatEvent_aborted_message_handling
      { chatRunId := some "run-1", chatStream := some "Partial reply",
        chatStreamStartedAt := some 100,
        chatMessages := [{ role := "user", content := some (.blocks [.text "Hi"]),
                           timestamp := 1 }],
        sessionKey := "main" }
      { runId := "run-1", sessionKey := "main", state := "aborted",
        message :=
          some (.obj { role := "user",
                       content := some (.blocks [.text "unexpected"]) }) }
      (by decide) (by decide) (by decide)).2.2.1
    (Or.inr ⟨{ role := "user", content := some (.blocks [.text "unexpected"]) },
      by decide, by decide⟩)
    (by decide))

/-! ## Runtime adapter (`chat-assistant/runtime/adapter.ts`)

The definitions below are embedded from the adapter's TypeScript source.
The adapter's `AssistantMessagePart` union mirrors the builder's render
items one-to-one (`buildAssistantThreadMessages` copies each item's fields
into a part before converting it to a thread message). -/

/-- The adapter's role projection for the chat widget: roles normalizing
to user or system keep those roles, everything else is presented as
assistant. -/
def threadRole (role : String) : String :=
  if lowerStr (normalizeRoleForGrouping role) = "user" then "user"
  else if lowerStr (normalizeRoleForGrouping role) = "system" then "system"
  else "assistant"

/-- The adapter's `AssistantMessagePart` union: the render item attached
to each widget message as opaque metadata. -/
inductive AssistantMessagePart where
  | group (key : String) (role : String) (messages : List (String × Message))
      (timestamp : Int) (isStreaming : Bool)
  | divider (key : String) (label : String) (timestamp : Int)
  | stream (key : String) (text : String) (startedAt : Int)
  | readingIndicator (key : String)
deriving DecidableEq, Repr

/-- `extractGroupText`: the non-empty trimmed member texts joined by blank
lines, then trimmed. -/
def extractGroupText (messages : List (String × Message)) : String :=
  trimStr (String.intercalate "\n\n"
    (((messages.map (fun item => trimStr (extractTextCached item.2)))).filter
      (fun t => t ≠ "")))

/-- The widget message's run status (`running` or `complete`). -/
inductive ThreadStatus where
  | running
  | complete
deriving DecidableEq, Repr

/-- The external chat widget's message shape, as far as the adapter
populates it.  `createdAt := none` stands for the wall-clock `new Date()`
the reading indicator uses; `meta` carries the originating part. -/
structure ThreadMsg where
  id : String
  role : String
  content : List ContentBlock
  createdAt : Option Int := none
  status : Option ThreadStatus := none
  meta : Option AssistantMessagePart := none
deriving DecidableEq, Repr

/-- `toThreadMessage`: converts a part into the widget's message shape.
Dividers become system messages carrying the label; an empty stream text
falls back to "…"; group text falls back to a single space " " when
empty. -/
def toThreadMessage (part : AssistantMessagePart) : ThreadMsg :=
  match part with
  | .divider key label timestamp =>
      { id := key, role := "system", content := [.text label],
        createdAt := some timestamp, meta := some part }
  | .readingIndicator key =>
      { id := key, role := "assistant", content := [.text "…"],
        status := some .running, meta := some part }
  | .stream key text startedAt =>
      { id := key, role := "assistant",
        content := [.text (if text = "" then "…" else text)],
        createdAt := some startedAt, status := some .running, meta := some part }
  | .group key role msgs timestamp _ =>
      if threadRole role = "assistant" then
        { id := key, role := threadRole role,
          content := [.text (if extractGroupText msgs = "" then " " else extractGroupText msgs)],
          createdAt := some timestamp, status := some .complete, meta := some part }
      else if threadRole role = "user" then
        { id := key, role := threadRole role,
          content := [.text (if extractGroupText msgs = "" then " " else extractGroupText msgs)],
          createdAt := some timestamp, meta := some part }
      else
        { id := key, role := threadRole role,
          content := [.text (if extractGroupText msgs = "" then " " else extractGroupText msgs)],
          createdAt := some timestamp, meta := some part }

/-- The item-to-part copy performed inside `buildAssistantThreadMessages`
(field-for-field). -/
def toAssistantPart : ChatItem → AssistantMessagePart
  | .group k r ms t s => .group k r ms t s
  | .divider k l t => .divider k l t
  | .stream k tx st => .stream k tx st
  | .readingIndicator k => .readingIndicator k

/-- The chat view props consumed by the adapter, restricted to the fields
that exist in the embedding (callbacks and presentation-only fields are
omitted); `buildAssistantThreadMessages` reads only the six builder
inputs. -/
structure ChatProps where
  sessionKey : String
  messages : List Message
  toolMessages : List Message
  showThinking : Bool
  stream : Option String
  streamStartedAt : Option Int
  connected : Bool := true
  canSend : Bool := true
  sending : Bool := false
  loading : Bool := false
  draft : String := ""
deriving DecidableEq, Repr

/-- The six builder inputs `buildAssistantThreadMessages` passes to
`buildChatItems`. -/
def toBuildParams (p : ChatProps) : BuildParams :=
  { sessionKey := p.sessionKey, messages := p.messages, toolMessages := p.toolMessages,
    showThinking := p.showThinking, stream := p.stream, streamStartedAt := p.streamStartedAt }

/-- `buildAssistantThreadMessages`: build the render items, copy each into
a part, and convert each part to a widget message. -/
def buildAssistantThreadMessages (props : ChatProps) : List ThreadMsg :=
  ((buildChatItems (toBuildParams props)).map toAssistantPart).map toThreadMessage

/-- C9: `threadRole` is total into exactly the three widget roles: roles
normalizing to user or system map to those, and every other role
(tool, tool-result aliases, unrecognized strings) maps to assistant. -/
theorem threadRole_three_way (role : String) :
    (threadRole role = "user" ∨ threadRole role = "assistant" ∨
      threadRole role = "system") ∧
    (normalizeRoleForGrouping role = "user" → threadRole role = "user") ∧
    (normalizeRoleForGrouping role = "system" → threadRole role = "system") ∧
    (normalizeRoleForGrouping role ≠ "user" → normalizeRoleForGrouping role ≠ "system" →
      threadRole role = "assistant") := by
  have h5 : normalizeRoleForGrouping role = "user" ∨
      normalizeRoleForGrouping role = "assistant" ∨
      normalizeRoleForGrouping role = "system" ∨
      normalizeRoleForGrouping role = "tool" ∨
      normalizeRoleForGrouping role = "other" := by
    unfold normalizeRoleForGrouping
    split
    · exact Or.inl rfl
    split
    · exact Or.inr (Or.inl rfl)
    split
    · exact Or.inr (Or.inr (Or.inl rfl))
    split
    · exact Or.inr (Or.inr (Or.inr (Or.inl rfl)))
    · exact Or.inr (Or.inr (Or.inr (Or.inr rfl)))
  rcases h5 with h | h | h | h | h <;> refine ⟨?_, ?_, ?_, ?_⟩ <;>
    simp only [threadRole, h] <;> decide

/-- Witness for C9: the alias role "tool_result" does not normalize to
user or system and is presented to the widget as assistant. -/
theorem threadRole_three_way_witness : threadRole "tool_result" = "assistant" :=
  (threadRole_three_way "tool_result").2.2.2 (by decide) (by decide)

/-! ## Structural invariants of the built items -/

/-- The structural invariant every built render item satisfies: a group's
key is `groupKey` of its role and its first member's message (whose member
key is that message's identity), and a divider's label is "Compaction". -/
def builderItemInvariant : ChatItem → Prop
  | .group key role msgs _ _ =>
      ∃ first rest, msgs = (msgIdentity first, first) :: rest ∧ key = groupKey role first
  | .divider _ label _ => label = "Compaction"
  | _ => True

theorem closeGroup_invariant (l : List Message) :
    ∀ item ∈ closeGroup l, builderItemInvariant item := by
  intro item h
  cases l with
  | nil => simp [closeGroup] at h
  | cons first rest =>
    simp only [closeGroup, List.mem_singleton] at h
    subst h
    exact ⟨first, rest.map (fun x => (msgIdentity x, x)), by simp, rfl⟩

theorem walkAux_cons (cur : List Message) (m : Message) (rest : List Message) :
    walkAux cur (m :: rest) =
      match m.marker with
      | some marker =>
          closeGroup cur.reverse ++
            (ChatItem.divider ("divider:" ++ marker.kind ++ ":" ++ marker.id) "Compaction"
                m.timestamp :: walkAux [] rest)
      | none =>
        match cur with
        | [] => walkAux [m] rest
        | c :: _ =>
          if normalizeRoleForGrouping c.role = normalizeRoleForGrouping m.role then
            walkAux (m :: cur) rest
          else closeGroup cur.reverse ++ walkAux [m] rest := rfl

theorem walkAux_cons_marker (cur : List Message) (m : Message) (rest : List Message)
    (marker : CompactionMarker) (hm : m.marker = some marker) :
    walkAux cur (m :: rest) =
      closeGroup cur.reverse ++
        (ChatItem.divider ("divider:" ++ marker.kind ++ ":" ++ marker.id) "Compaction"
            m.timestamp :: walkAux [] rest) := by
  rw [walkAux_cons, hm]

theorem walkAux_cons_fresh (m : Message) (rest : List Message) (hm : m.marker = none) :
    walkAux [] (m :: rest) = walkAux [m] rest := by
  rw [walkAux_cons, hm]

theorem walkAux_cons_extend (c : Message) (cs : List Message) (m : Message)
    (rest : List Message) (hm : m.marker = none) :
    walkAux (c :: cs) (m :: rest) =
      if normalizeRoleForGrouping c.role = normalizeRoleForGrouping m.role then
        walkAux (m :: c :: cs) rest
      else closeGroup (c :: cs).reverse ++ walkAux [m] rest := by
  rw [walkAux_cons, hm]

theorem walkAux_invariant (l : List Message) :
    ∀ cur : List Message, ∀ item ∈ walkAux cur l, builderItemInvariant item := by
  induction l with
  | nil =>
    intro cur item h
    exact closeGroup_invariant cur.reverse item h
  | cons m rest ih =>
    intro cur item h
    cases hm : m.marker with
    | some marker =>
      rw [walkAux_cons_marker cur m rest marker hm] at h
      rcases List.mem_append.mp h with h1 | h2
      · exact closeGroup_invariant _ item h1
      · rcases List.mem_cons.mp h2 with h3 | h4
        · subst h3
          rfl
        · exact ih [] item h4
    | none =>
      cases cur with
      | nil =>
        rw [walkAux_cons_fresh m rest hm] at h
        exact ih [m] item h
      | cons c cs =>
        rw [walkAux_cons_extend c cs m rest hm] at h
        by_cases hrole : normalizeRoleForGrouping c.role = normalizeRoleForGrouping m.role
        · rw [if_pos hrole] at h
          exact ih (m :: c :: cs) item h
        · rw [if_neg hrole] at h
          rcases List.mem_append.mp h with h1 | h2
          · exact closeGroup_invariant _ item h1
          · exact ih [m] item h2

theorem markStreamFlag_invariant (a : Bool) (item : ChatItem)
    (h : builderItemInvariant item) : builderItemInvariant (markStreamFlag a item) := by
  cases item with
  | group k r ms t b => exact h
  | divider k l t => exact h
  | stream k tx st => exact h
  | readingIndicator k => exact h

theorem markTail_invariant (a : Bool) (items : List ChatItem)
    (hall : ∀ j ∈ items, builderItemInvariant j) :
    ∀ item ∈ markTail a items, builderItemInvariant item := by
  induction items with
  | nil => simp [markTail]
  | cons x xs ih =>
    intro item h
    cases xs with
    | nil =>
      simp only [markTail, List.mem_singleton] at h
      subst h
      exact markStreamFlag_invariant a x (hall x (by simp))
    | cons y ys =>
      rw [markTail] at h
      rcases List.mem_cons.mp h with h1 | h2
      · subst h1
        exact hall item (by simp)
      · exact ih (fun j hj => hall j (List.mem_cons_of_mem x hj)) item h2

theorem streamItems_invariant (p : BuildParams) :
    ∀ item ∈ streamItems p, builderItemInvariant item := by
  intro item h
  rw [streamItems] at h
  cases hs : p.stream with
  | none => rw [hs] at h; simp at h
  | some s =>
    rw [hs] at h
    by_cases he : s = ""
    · subst he
      simp at h
      subst h
      trivial
    · simp [he] at h
      subst h
      trivial

theorem buildChatBody_invariant (p : BuildParams) (msgs : List Message) :
    ∀ item ∈ buildChatBody p msgs, builderItemInvariant item := by
  intro item h
  rw [buildChatBody] at h
  rcases List.mem_append.mp h with h1 | h2
  · exact markTail_invariant _ _ (fun j hj => walkAux_invariant _ [] j hj) item h1
  · exact streamItems_invariant p item h2

theorem buildChatItems_invariant (p : BuildParams) :
    ∀ item ∈ buildChatItems p, builderItemInvariant item := by
  intro item h
  rw [buildChatItems] at h
  by_cases hn : 200 < p.messages.length
  · rw [if_pos hn] at h
    rcases List.mem_cons.mp h with h1 | h2
    · subst h1
      exact ⟨truncationNotice p.messages.length, [], rfl, rfl⟩
    · exact buildChatBody_invariant _ _ item h2
  · rw [if_neg hn] at h
    exact buildChatBody_invariant _ _ item h

/-- C8: `buildAssistantThreadMessages` is deterministic in its six builder
inputs — two props records agreeing on sessionKey, messages, toolMessages,
showThinking, stream, and streamStartedAt (but possibly differing in every
other prop) produce the same message key (`id`) item-for-item — and every
group item's key is the function `groupKey` of its role and its first
member's identity alone. -/
theorem buildAssistantThreadMessages_key_stability (p q : ChatProps)
    (hsk : p.sessionKey = q.sessionKey) (hm : p.messages = q.messages)
    (htm : p.toolMessages = q.toolMessages) (hst : p.showThinking = q.showThinking)
    (hs : p.stream = q.stream) (hsa : p.streamStartedAt = q.streamStartedAt) :
    (buildAssistantThreadMessages p).map ThreadMsg.id =
      (buildAssistantThreadMessages q).map ThreadMsg.id ∧
    (∀ item ∈ buildChatItems (toBuildParams p),
      ∀ key role msgs ts strm, item = ChatItem.group key role msgs ts strm →
        ∃ first rest, msgs = (msgIdentity first, first) :: rest ∧
          key = groupKey role first) := by
  have hbp : toBuildParams p = toBuildParams q := by
    simp [toBuildParams, BuildParams.mk.injEq, hsk, hm, htm, hst, hs, hsa]
  constructor
  · rw [buildAssistantThreadMessages, buildAssistantThreadMessages, hbp]
  · intro item hitem key role msgs ts strm heq
    have hinv := buildChatItems_invariant (toBuildParams p) item hitem
    rw [heq] at hinv
    exact hinv

/-- Witness for C8: two props records differing only in `connected`
produce identical key sequences (here: the one stream-bubble key). -/
theorem buildAssistantThreadMessages_key_stability_witness :
    (buildAssistantThreadMessages
        { sessionKey := "main", messages := [], toolMessages := [], showThinking := false,
          stream := some "Streaming", streamStartedAt := some 1000,
          connected := true }).map ThreadMsg.id =
      (buildAssistantThreadMessages
        { sessionKey := "main", messages := [], toolMessages := [], showThinking := false,
          stream := some "Streaming", streamStartedAt := some 1000,
          connected := false }).map ThreadMsg.id :=
  (buildAssistantThreadMessages_key_stability
    { sessionKey := "main", messages := [], toolMessages := [], showThinking := false,
      stream := some "Streaming", streamStartedAt := some 1000, connected := true }
    { sessionKey := "main", messages := [], toolMessages := [], showThinking := false,
      stream := some "Streaming", streamStartedAt := some 1000, connected := false }
    rfl rfl rfl rfl rfl rfl).1

/-- C10: every widget message produced by `buildAssistantThreadMessages`
carries exactly one text block with non-empty text: empty group text falls
back to " ", empty stream text and the reading indicator fall back to "…",
and divider labels are always "Compaction". -/
theorem buildAssistantThreadMessages_nonempty_text (props : ChatProps) :
    ∀ tm ∈ buildAssistantThreadMessages props,
      ∃ t, tm.content = [ContentBlock.text t] ∧ t ≠ "" := by
  intro tm htm
  rw [buildAssistantThreadMessages] at htm
  rcases List.mem_map.mp htm with ⟨part, hpart, rfl⟩
  rcases List.mem_map.mp hpart with ⟨item, hitem, rfl⟩
  have hinv := buildChatItems_invariant (toBuildParams props) item hitem
  cases item with
  | divider k label t =>
    have hlabel : label = "Compaction" := hinv
    subst hlabel
    exact ⟨"Compaction", rfl, by decide⟩
  | readingIndicator k => exact ⟨"…", rfl, by decide⟩
  | stream k text startedAt =>
    by_cases he : text = ""
    · exact ⟨"…", by simp [toAssistantPart, toThreadMessage, he], by decide⟩
    · exact ⟨text, by simp [toAssistantPart, toThreadMessage, he], he⟩
  | group k r ms t b =>
    refine ⟨if extractGroupText ms = "" then " " else extractGroupText ms, ?_, ?_⟩
    · show (toThreadMessage (toAssistantPart (ChatItem.group k r ms t b))).content = _
      simp only [toAssistantPart, toThreadMessage]
      split
      · rfl
      · split
        · rfl
        · rfl
    · split
      · decide
      · next he => exact he

/-- A concrete props record with an empty active stream, producing a
reading-indicator widget message. -/
def readingIndicatorProps : ChatProps :=
  { sessionKey := "main", messages := [], toolMessages := [], showThinking := false,
    stream := some "", streamStartedAt := some 123 }

/-- Witness for C10: the reading-indicator message of the concrete props
carries a single non-empty text block. -/
theorem buildAssistantThreadMessages_nonempty_text_witness :
    ∃ t, (toThreadMessage (AssistantMessagePart.readingIndicator "stream:main:123")).content =
      [ContentBlock.text t] ∧ t ≠ "" :=
  buildAssistantThreadMessages_nonempty_text readingIndicatorProps
    (toThreadMessage (AssistantMessagePart.readingIndicator "stream:main:123")) (by decide)

/-! ## Reload prompt resolution (`resolveReloadPrompt`) -/

/-- `parseThreadMessageText`: the message's text parts joined by newlines,
trimmed. -/
def parseThreadMessageText (m : ThreadMsg) : String :=
  trimStr (String.intercalate "\n" (m.content.filterMap contentBlockText))

/-- `parseUserPromptFromThreadMessage`: a user message's own non-empty
text, else the group text of an attached user-role group part, else "". -/
def parseUserPromptFromThreadMessage (m : ThreadMsg) : String :=
  if m.role = "user" ∧ parseThreadMessageText m ≠ "" then parseThreadMessageText m
  else
    match m.meta with
    | some (.group _ role msgs _ _) =>
        if threadRole role = "user" then extractGroupText msgs else ""
    | _ => ""

/-- The prompt extracted at list index `i` ("" when out of range, matching
the loops' bounds). -/
def promptAt (messages : List ThreadMsg) (i : Nat) : String :=
  match messages[i]? with
  | some m => parseUserPromptFromThreadMessage m
  | none => ""

/-- One scanning loop of `resolveReloadPrompt`: the first non-empty prompt
along the index order, else "". -/
def scanFirst (messages : List ThreadMsg) : List Nat → String
  | [] => ""
  | i :: rest =>
    if promptAt messages i = "" then scanFirst messages rest
    else promptAt messages i

/-- The descending index sequence `n-1, …, 0` of the backward loop. -/
def countdown : Nat → List Nat
  | 0 => []
  | n + 1 => n :: countdown n

/-- The descending index sequence of the fallback loop: from `n-1` down
while the index stays above `stop`. -/
def countdownAbove (stop : Int) : Nat → List Nat
  | 0 => []
  | n + 1 => if stop < (n : Int) then n :: countdownAbove stop n else []

/-- `startIndex` of `resolveReloadPrompt`: the anchor's index when a
non-empty `parentId` is found, else the last index (−1 on an empty
list). -/
def reloadStartIndex (messages : List ThreadMsg) (parentId : Option String) : Int :=
  match parentId with
  | some pid =>
      if pid = "" then (messages.length : Int) - 1
      else
        match messages.findIdx? (fun m => m.id = pid) with
        | some i => (i : Int)
        | none => (messages.length : Int) - 1
  | none => (messages.length : Int) - 1

/-- The backward loop's index sequence `startIndex, …, 0` (empty when the
start is negative). -/
def backwardIdxs (start : Int) : List Nat :=
  if start < 0 then [] else countdown (start.toNat + 1)

/-- `resolveReloadPrompt`: scan backward from the anchor, then scan the
indices after the anchor from the end, returning the first non-empty
user-authored prompt found, else "". -/
def resolveReloadPrompt (messages : List ThreadMsg) (parentId : Option String) : String :=
  if scanFirst messages (backwardIdxs (reloadStartIndex messages parentId)) = "" then
    scanFirst messages (countdownAbove (reloadStartIndex messages parentId) messages.length)
  else scanFirst messages (backwardIdxs (reloadStartIndex messages parentId))

theorem scanFirst_eq_empty_iff (msgs : List ThreadMsg) (idxs : List Nat) :
    scanFirst msgs idxs = "" ↔ ∀ i ∈ idxs, promptAt msgs i = "" := by
  induction idxs with
  | nil => simp [scanFirst]
  | cons i rest ih =>
    by_cases h : promptAt msgs i = ""
    · simp [scanFirst, h, ih]
    · simp [scanFirst, h, List.forall_mem_cons]

theorem mem_countdown {i n : Nat} : i ∈ countdown n ↔ i < n := by
  induction n with
  | zero => simp [countdown]
  | succ k ih =>
    simp only [countdown, List.mem_cons, ih]
    omega

theorem mem_countdownAbove {stop : Int} {i n : Nat} :
    i ∈ countdownAbove stop n ↔ stop < (i : Int) ∧ i < n := by
  induction n with
  | zero => simp [countdownAbove]
  | succ k ih =>
    by_cases h : stop < (k : Int)
    · simp only [countdownAbove, if_pos h, List.mem_cons, ih]
      omega
    · simp only [countdownAbove, if_neg h, List.not_mem_nil, false_iff]
      omega

theorem promptAt_empty_of_all (msgs : List ThreadMsg)
    (hall : ∀ m ∈ msgs, parseUserPromptFromThreadMessage m = "") (i : Nat) :
    promptAt msgs i = "" := by
  unfold promptAt
  cases hg : msgs[i]? with
  | none => rfl
  | some m => exact hall m (List.getElem?_mem hg)

theorem promptAt_exists_of_ne (msgs : List ThreadMsg) (i : Nat)
    (h : promptAt msgs i ≠ "") :
    ∃ m ∈ msgs, parseUserPromptFromThreadMessage m ≠ "" := by
  unfold promptAt at h
  cases hg : msgs[i]? with
  | none => rw [hg] at h; simp at h
  | some m =>
    rw [hg] at h
    exact ⟨m, List.getElem?_mem hg, h⟩

theorem scanFirst_sound (msgs : List ThreadMsg) (idxs : List Nat)
    (h : scanFirst msgs idxs ≠ "") :
    ∃ m ∈ msgs, parseUserPromptFromThreadMessage m ≠ "" := by
  induction idxs with
  | nil => simp [scanFirst] at h
  | cons i rest ih =>
    by_cases hp : promptAt msgs i = ""
    · rw [scanFirst, if_pos hp] at h
      exact ih h
    · exact promptAt_exists_of_ne msgs i hp

theorem scanFirst_countdown_first (msgs : List ThreadMsg) (i : Nat)
    (hpi : promptAt msgs i ≠ "") :
    ∀ s : Nat, i ≤ s → (∀ j : Nat, i < j → j ≤ s → promptAt msgs j = "") →
      scanFirst msgs (countdown (s + 1)) = promptAt msgs i := by
  intro s
  induction s with
  | zero =>
    intro hi _
    have h0 : i = 0 := Nat.le_zero.mp hi
    subst h0
    rw [countdown, countdown, scanFirst, if_neg hpi]
  | succ n ihs =>
    intro hi hj
    by_cases hin : i = n + 1
    · subst hin
      rw [countdown, scanFirst, if_neg hpi]
    · have hin' : i ≤ n := by omega
      have hpn : promptAt msgs (n + 1) = "" := hj (n + 1) (by omega) (by omega)
      rw [countdown, scanFirst, if_pos hpn]
      exact ihs hin' (fun j h1 h2 => hj j h1 (by omega))

/-- C7: `resolveReloadPrompt` returns "" exactly when no message in the
list yields a non-empty user-authored prompt (backward and fallback scans
together cover every index), and the backward scan has priority: the first
non-empty prompt at or before the anchor position is the one returned. -/
theorem resolveReloadPrompt_coverage (messages : List ThreadMsg) (parentId : Option String) :
    (resolveReloadPrompt messages parentId = "" ↔
      ∀ m ∈ messages, parseUserPromptFromThreadMessage m = "") ∧
    (∀ i : Nat, (i : Int) ≤ reloadStartIndex messages parentId →
      promptAt messages i ≠ "" →
      (∀ j : Nat, i < j → (j : Int) ≤ reloadStartIndex messages parentId →
        promptAt messages j = "") →
      resolveReloadPrompt messages parentId = promptAt messages i) := by
  constructor
  · constructor
    · intro hres m hm
      by_contra hne
      rcases List.mem_iff_getElem?.mp hm with ⟨i, hg⟩
      have hilen : i < messages.length := (List.getElem?_eq_some.mp hg).1
      have hpi : promptAt messages i ≠ "" := by
        unfold promptAt
        rw [hg]
        exact hne
      unfold resolveReloadPrompt at hres
      by_cases hb :
          scanFirst messages (backwardIdxs (reloadStartIndex messages parentId)) = ""
      · rw [if_pos hb] at hres
        by_cases hc : (i : Int) ≤ reloadStartIndex messages parentId
        · have h0 : ¬ reloadStartIndex messages parentId < 0 := by omega
          rw [backwardIdxs, if_neg h0] at hb
          have hmem : i ∈ countdown ((reloadStartIndex messages parentId).toNat + 1) := by
            rw [mem_countdown]
            omega
          exact hpi ((scanFirst_eq_empty_iff messages _).mp hb i hmem)
        · have hmem : i ∈ countdownAbove (reloadStartIndex messages parentId)
              messages.length := by
            rw [mem_countdownAbove]
            exact ⟨by omega, hilen⟩
          exact hpi ((scanFirst_eq_empty_iff messages _).mp hres i hmem)
      · rw [if_neg hb] at hres
        exact hb hres
    · intro hall
      have hpe := promptAt_empty_of_all messages hall
      unfold resolveReloadPrompt
      rw [if_pos ((scanFirst_eq_empty_iff messages _).mpr (fun i _ => hpe i))]
      exact (scanFirst_eq_empty_iff messages _).mpr (fun i _ => hpe i)
  · intro i hi hpi hj
    have h0 : ¬ reloadStartIndex messages parentId < 0 := by omega
    have hb : scanFirst messages (backwardIdxs (reloadStartIndex messages parentId)) =
        promptAt messages i := by
      rw [backwardIdxs, if_neg h0]
      exact scanFirst_countdown_first messages i hpi
        (reloadStartIndex messages parentId).toNat (by omega)
        (fun j h1 h2 => hj j h1 (by omega))
    unfold resolveReloadPrompt
    rw [hb, if_neg hpi]

/-- Witness for C7: with a single user message and no anchor, the
backward scan returns that message's prompt. -/
theorem resolveReloadPrompt_coverage_witness :
    resolveReloadPrompt
        [{ id := "u1", role := "user", content := [ContentBlock.text "original prompt"] }]
        none =
      promptAt
        [{ id := "u1", role := "user", content := [ContentBlock.text "original prompt"] }]
        0 :=
  (resolveReloadPrompt_coverage
    [{ id := "u1", role := "user", content := [ContentBlock.text "original prompt"] }]
    none).2 0 (by decide) (by decide)
    (fun j h1 h2 => by
      have hs : reloadStartIndex
          [{ id := "u1", role := "user", content := [ContentBlock.text "original prompt"] }]
          none = 0 := by decide
      rw [hs] at h2
      exact absurd h2 (by omega))

end OpenClaw
